import Mathlib

/-!
Verification of the coffee-health dashboard (`src/coffee2.py`).

The script loads a fixed-schema table, filters it by country / gender /
age range, derives a numeric stress index and (optionally) an activity
bin, and computes KPI means, group-by aggregations and a Pearson
correlation matrix over the filtered rows.  Below, the table is a
`List Record`, pandas boolean-mask filtering is `List.filter`, the
`Series.map` of the stress dictionary is an `Option ℤ`-valued lookup,
`pd.cut` is the interval lookup `Activity_Bins`, and `Series.mean` is
sum / length (skipping missing values for the optional stress column,
as pandas does with `skipna=True`).
-/

namespace CoffeeHealth

/-- One row of `synthetic_coffee_health_10000.csv`, with the columns the
script touches.  Numeric columns are modelled as `ℚ`, ages as `ℤ`. -/
structure Record where
  Country : String
  Gender : String
  Age : ℤ
  Coffee_Intake : ℚ
  Sleep_Hours : ℚ
  Stress_Level : String
  Heart_Rate : ℚ
  BMI : ℚ
  Occupation : String
  Smoking : String
  Alcohol_Consumption : String
  Physical_Activity_Hours : ℚ
deriving DecidableEq, Repr

/-- The row mask of lines 34–37: `Country.isin(countries) &
Gender.isin(genders) & (Age >= lo) & (Age <= hi)`. -/
def rowPred (countries genders : List String) (ageMin ageMax : ℤ)
    (r : Record) : Bool :=
  decide (r.Country ∈ countries) && decide (r.Gender ∈ genders) &&
    decide (ageMin ≤ r.Age) && decide (r.Age ≤ ageMax)

/-- `filtered_data` of lines 34–37: the rows of `data` satisfying the mask. -/
def filtered_data (data : List Record) (countries genders : List String)
    (ageMin ageMax : ℤ) : List Record :=
  data.filter (rowPred countries genders ageMin ageMax)

/-- The dictionary `stress_level_mapping = {'Low': 1, 'Medium': 2, 'High': 3}`
of line 46, as used by `Series.map` on line 47: keys outside the dictionary
map to a missing value (`none`, pandas `NaN`). -/
def stress_level_mapping (level : String) : Option ℤ :=
  if level = "Low" then some 1
  else if level = "Medium" then some 2
  else if level = "High" then some 3
  else none

/-- Whether a row's stress level is one of the three recognized categories,
i.e. whether line 47 gives it a non-missing stress index. -/
def recognizedStress (r : Record) : Bool :=
  (stress_level_mapping r.Stress_Level).isSome

/-- `pd.cut(hours, bins=[0, 2, 4, 6, 24], labels=[...])` of lines 187–191.
`pd.cut` defaults to `right=True` and `include_lowest=False`, so the
intervals are left-open and right-closed: (0,2], (2,4], (4,6], (6,24];
values outside (0,24] get no bin (`NaN`). -/
def Activity_Bins (hours : ℚ) : Option String :=
  if 0 < hours ∧ hours ≤ 2 then some "0-2h"
  else if 2 < hours ∧ hours ≤ 4 then some "2-4h"
  else if 4 < hours ∧ hours ≤ 6 then some "4-6h"
  else if 6 < hours ∧ hours ≤ 24 then some "6h+"
  else none

/-- pandas `Series.mean` on a fully numeric column: sum / length. -/
def seriesMean (xs : List ℚ) : ℚ := xs.sum / xs.length

/-- pandas `Series.mean` on a column with missing values (`skipna=True`
default): the mean of the present values, `NaN` (here `none`) when every
value is missing. -/
def seriesMeanOpt (xs : List (Option ℤ)) : Option ℚ :=
  let vs := xs.filterMap id
  if vs.isEmpty then none else some ((vs.sum : ℚ) / vs.length)

/-- The stress-index KPI of line 62: mean of the `Stress_Index` column
added on line 47 (missing for unrecognized stress levels). -/
def Stress_Index_KPI (rows : List Record) : Option ℚ :=
  seriesMeanOpt (rows.map (fun r => stress_level_mapping r.Stress_Level))

/-- The derived table of lines 45–47: each filtered row together with its
`Stress_Index` column value. -/
def withStressIndex (rows : List Record) : List (Record × Option ℤ) :=
  rows.map (fun r => (r, stress_level_mapping r.Stress_Level))

/-- `country_avg` of line 105: group by country (pandas sorts group keys
ascending), mean coffee intake per group. -/
def country_avg (rows : List Record) : List (String × ℚ) :=
  (((rows.map Record.Country).dedup).insertionSort (· ≤ ·)).map
    (fun c => (c, seriesMean
      ((rows.filter (fun r => decide (r.Country = c))).map Record.Coffee_Intake)))

/-- `occupation_avg` of line 144: group by (occupation, gender), mean coffee
intake per group (the ordering of the groups is not modelled; no claim
concerns it). -/
def occupation_avg (rows : List Record) : List ((String × String) × ℚ) :=
  ((rows.map (fun r => (r.Occupation, r.Gender))).dedup).map
    (fun k => (k, seriesMean
      ((rows.filter (fun r => decide (r.Occupation = k.1 ∧ r.Gender = k.2))).map
        Record.Coffee_Intake)))

/-- The distinct ages of the table, ascending — the group keys produced by
`groupby('Age')` on line 221 (pandas sorts group keys ascending). -/
def agesSorted (rows : List Record) : List ℤ :=
  ((rows.map Record.Age).dedup).insertionSort (· ≤ ·)

/-- The rows of a given age — one `groupby('Age')` group. -/
def ageGroup (rows : List Record) (a : ℤ) : List Record :=
  rows.filter (fun r => decide (r.Age = a))

/-- `age_trend` of line 221: per distinct age (ascending), the mean coffee
intake and mean sleep hours of the rows with that age. -/
def age_trend (rows : List Record) : List (ℤ × ℚ × ℚ) :=
  (agesSorted rows).map (fun a =>
    (a, seriesMean ((ageGroup rows a).map Record.Coffee_Intake),
        seriesMean ((ageGroup rows a).map Record.Sleep_Hours)))

/-- Everything the script computes downstream of the empty-result guard of
lines 40–42: the derived table of lines 45–47 and the aggregation views
(the correlation matrix is a further function `corrMatrix` of the same
filtered rows). -/
structure Report where
  table : List (Record × Option ℤ)
  kpiCoffee : ℚ
  kpiSleep : ℚ
  kpiStress : Option ℚ
  kpiBMI : ℚ
  countryAvg : List (String × ℚ)
  occupationAvg : List ((String × String) × ℚ)
  ageTrend : List (ℤ × ℚ × ℚ)
deriving DecidableEq, Repr

/-- The downstream computation applied to a non-empty filtered table. -/
def mkReport (fd : List Record) : Report where
  table := withStressIndex fd
  kpiCoffee := seriesMean (fd.map Record.Coffee_Intake)
  kpiSleep := seriesMean (fd.map Record.Sleep_Hours)
  kpiStress := Stress_Index_KPI fd
  kpiBMI := seriesMean (fd.map Record.BMI)
  countryAvg := country_avg fd
  occupationAvg := occupation_avg fd
  ageTrend := age_trend fd

/-- What one run of the script renders: either the empty-result notice of
line 41 (after which `st.stop()` on line 42 halts the run), or the report. -/
inductive DashOutput where
  | emptyResult : DashOutput
  | report : Report → DashOutput
deriving DecidableEq, Repr

/-- One run of the script for a given loaded table and sidebar selection:
filter (lines 34–37), empty guard (lines 40–42), then the derived fields
and aggregation views. -/
def dashboard (data : List Record) (countries genders : List String)
    (ageMin ageMax : ℤ) : DashOutput :=
  let fd := filtered_data data countries genders ageMin ageMax
  if fd.isEmpty then .emptyResult else .report (mkReport fd)

/-- The script's variable state: the loaded source table plus the derived
objects the script binds along the way.  `filtered_data.copy()` on line 45
makes the filtered table an independent object, so column assignments
(lines 47 and 187) write only to the derived fields. -/
structure ScriptState where
  data : List Record
  filtered : List Record
  stressCol : List (Option ℤ)
  activityCol : List (Option String)
deriving DecidableEq, Repr

/-- `load_data` of lines 19–24: bind the source table; nothing derived yet. -/
def load_data (raw : List Record) : ScriptState := ⟨raw, [], [], []⟩

/-- Lines 34–37: bind the filtered rows. -/
def filterStep (countries genders : List String) (ageMin ageMax : ℤ)
    (s : ScriptState) : ScriptState :=
  { s with filtered := filtered_data s.data countries genders ageMin ageMax }

/-- Line 45: `filtered_data = filtered_data.copy()` — rebinds `filtered` to
an equal, independent table; the source is untouched. -/
def copyStep (s : ScriptState) : ScriptState := { s with filtered := s.filtered }

/-- Line 47: the `Stress_Index` column assignment, written to the copy. -/
def stressStep (s : ScriptState) : ScriptState :=
  { s with stressCol := s.filtered.map (fun r => stress_level_mapping r.Stress_Level) }

/-- Lines 187–191: the `Activity_Bins` column assignment, written to the
copy (only performed when the habit control selects the activity column). -/
def activityStep (s : ScriptState) : ScriptState :=
  { s with activityCol := s.filtered.map (fun r => Activity_Bins r.Physical_Activity_Hours) }

/-- The script's sequence of state-changing operations, with the optional
activity binning controlled by the habit selection. -/
def runScript (raw : List Record) (countries genders : List String)
    (ageMin ageMax : ℤ) (habitIsActivity : Bool) : ScriptState :=
  let s1 := filterStep countries genders ageMin ageMax (load_data raw)
  let s2 := stressStep (copyStep s1)
  if habitIsActivity then activityStep s2 else s2

/-- The five columns selected on line 215:
`['Coffee_Intake','Sleep_Hours','Stress_Index','Heart_Rate','BMI']`,
as possibly-missing numeric columns — only `Stress_Index` (added on
line 47) can actually be missing, on rows with an unrecognized stress
level. -/
def corrCols : Fin 5 → Record → Option ℚ :=
  ![fun r => some r.Coffee_Intake,
    fun r => some r.Sleep_Hours,
    fun r => (stress_level_mapping r.Stress_Level).map (fun z => (z : ℚ)),
    fun r => some r.Heart_Rate,
    fun r => some r.BMI]

/-- The pairwise-complete observations of two columns: the value pairs of
the rows where both columns are present.  `DataFrame.corr` excludes
NA/null values pairwise, computing each entry over exactly these pairs. -/
def pairObs (f g : Record → Option ℚ) (rows : List Record) : List (ℚ × ℚ) :=
  rows.filterMap (fun r =>
    match f r, g r with
    | some a, some b => some (a, b)
    | _, _ => none)

/-- The centred square sum Σ (x − mean)² of a value list — the variance up
to the 1/(n−1) factor, which cancels in the correlation quotient. -/
def pvar (xs : List ℚ) : ℚ :=
  (xs.map (fun x => (x - seriesMean xs) * (x - seriesMean xs))).sum

/-- The centred cross-product sum Σ (x − mean fst)(y − mean snd) over a
pair list. -/
def pcov (ps : List (ℚ × ℚ)) : ℚ :=
  (ps.map (fun p =>
    (p.1 - seriesMean (ps.map Prod.fst)) * (p.2 - seriesMean (ps.map Prod.snd)))).sum

/-- Pearson correlation of a pair list: centred cross-product sum over the
geometric mean of the centred square sums of the coordinates. -/
noncomputable def pcorr (ps : List (ℚ × ℚ)) : ℝ :=
  (pcov ps : ℝ) /
    (Real.sqrt (pvar (ps.map Prod.fst)) * Real.sqrt (pvar (ps.map Prod.snd)))

/-- The 5×5 Pearson correlation matrix of line 215, entry by entry over the
pairwise-complete observations. -/
noncomputable def corrMatrix (rows : List Record) (i j : Fin 5) : ℝ :=
  pcorr (pairObs (corrCols i) (corrCols j) rows)

/-- A column is non-constant on a table when two of its present values
differ. -/
def Nonconstant (f : Record → Option ℚ) (rows : List Record) : Prop :=
  ∃ x ∈ rows.filterMap f, ∃ y ∈ rows.filterMap f, x ≠ y

instance (f : Record → Option ℚ) (rows : List Record) :
    Decidable (Nonconstant f rows) :=
  inferInstanceAs (Decidable (∃ x ∈ rows.filterMap f, ∃ y ∈ rows.filterMap f, x ≠ y))

theorem pairObs_swap (f g : Record → Option ℚ) (rows : List Record) :
    pairObs g f rows = (pairObs f g rows).map Prod.swap := by
  unfold pairObs
  induction rows with
  | nil => rfl
  | cons r t ih => cases hf : f r <;> cases hg : g r <;> simp [hf, hg, ih]

theorem pairObs_self (f : Record → Option ℚ) (rows : List Record) :
    pairObs f f rows = (rows.filterMap f).map (fun a => (a, a)) := by
  unfold pairObs
  induction rows with
  | nil => rfl
  | cons r t ih => cases hf : f r <;> simp [hf, ih]

theorem map_swap_fst (ps : List (ℚ × ℚ)) :
    (ps.map Prod.swap).map Prod.fst = ps.map Prod.snd := by
  simp [List.map_map, Function.comp_def]

theorem map_swap_snd (ps : List (ℚ × ℚ)) :
    (ps.map Prod.swap).map Prod.snd = ps.map Prod.fst := by
  simp [List.map_map, Function.comp_def]

theorem pcov_swap (ps : List (ℚ × ℚ)) : pcov (ps.map Prod.swap) = pcov ps := by
  unfold pcov
  rw [map_swap_fst, map_swap_snd, List.map_map]
  exact congrArg List.sum
    (congrArg (fun h => List.map h ps) (funext fun p => mul_comm _ _))

theorem map_diag_fst (vs : List ℚ) :
    ((vs.map (fun a => (a, a))).map Prod.fst) = vs := by
  simp [List.map_map, Function.comp_def]

theorem map_diag_snd (vs : List ℚ) :
    ((vs.map (fun a => (a, a))).map Prod.snd) = vs := by
  simp [List.map_map, Function.comp_def]

theorem pcov_diag (vs : List ℚ) :
    pcov (vs.map (fun a => (a, a))) = pvar vs := by
  unfold pcov pvar
  rw [map_diag_fst, map_diag_snd, List.map_map]
  rfl

theorem pvar_pos (xs : List ℚ) (h : ∃ a ∈ xs, ∃ b ∈ xs, a ≠ b) :
    0 < pvar xs := by
  obtain ⟨a, ha, b, hb, hab⟩ := h
  obtain ⟨x, hx, hne⟩ : ∃ x ∈ xs, x ≠ seriesMean xs := by
    by_cases hA : a = seriesMean xs
    · exact ⟨b, hb, fun hbm => hab (hA.trans hbm.symm)⟩
    · exact ⟨a, ha, hA⟩
  unfold pvar
  have hpos : 0 < (x - seriesMean xs) * (x - seriesMean xs) :=
    mul_self_pos.mpr (sub_ne_zero.mpr hne)
  refine lt_of_lt_of_le hpos (List.single_le_sum ?_ _ (List.mem_map_of_mem _ hx))
  intro y hy
  obtain ⟨z, _, rfl⟩ := List.mem_map.mp hy
  exact mul_self_nonneg _

/-- Sample rows used by concrete witnesses (the scenario of spec §8). -/
def rUS1 : Record :=
  ⟨"US", "Male", 25, 2, 7, "Low", 70, 22, "Engineer", "No", "No", 1⟩

def rUS2 : Record :=
  ⟨"US", "Female", 70, 4, 6, "High", 80, 25, "Doctor", "Yes", "Yes", 3⟩

def rDE : Record :=
  ⟨"DE", "Male", 40, 3, 8, "Medium", 75, 24, "Artist", "No", "Yes", 5⟩

/-- A row whose stress level is outside the three recognized categories. -/
def rBad : Record :=
  ⟨"US", "Male", 30, 5, 5, "Unknown", 90, 30, "Student", "No", "No", 0⟩

section Theorems

/-- C1: filtering returns exactly the rows whose country is in the selected
set, whose gender is in the selected set, and whose age lies in
[ageMin, ageMax] — a row is in the result iff it is in the table and meets
all three conditions. -/
theorem filter_exact (data : List Record) (countries genders : List String)
    (ageMin ageMax : ℤ) (r : Record) :
    r ∈ filtered_data data countries genders ageMin ageMax ↔
      r ∈ data ∧ r.Country ∈ countries ∧ r.Gender ∈ genders ∧
        ageMin ≤ r.Age ∧ r.Age ≤ ageMax := by
  simp [filtered_data, rowPred, List.mem_filter, and_assoc]

/-- C5: the stress mapping sends Low to 1, Medium to 2, High to 3 (hence is
strictly order-preserving on the three categories), and every other input
is mapped to a missing value. -/
theorem stress_mapping_spec :
    stress_level_mapping "Low" = some 1 ∧
    stress_level_mapping "Medium" = some 2 ∧
    stress_level_mapping "High" = some 3 ∧
    (1 : ℤ) < 2 ∧ (2 : ℤ) < 3 ∧
    (∀ s : String, s ≠ "Low" → s ≠ "Medium" → s ≠ "High" →
      stress_level_mapping s = none) := by
  refine ⟨rfl, rfl, rfl, by norm_num, by norm_num, ?_⟩
  intro s h1 h2 h3
  simp [stress_level_mapping, h1, h2, h3]

/-- C5 witness: the mapping is missing at a concrete unrecognized input. -/
theorem stress_mapping_spec_witness :
    stress_level_mapping "Extreme" = none :=
  stress_mapping_spec.2.2.2.2.2 "Extreme" (by decide) (by decide) (by decide)

/-- C2 counterexample: the claim asserts activityBin(0)="0-2h",
activityBin(2)="2-4h" and no bin outside [0,24); `pd.cut` with default
`right=True` instead leaves 0 unbinned, puts 2 in "0-2h", and puts 24 in
"6h+". -/
theorem activity_bins_counterexample :
    Activity_Bins 0 ≠ some "0-2h" ∧
    Activity_Bins 2 ≠ some "2-4h" ∧
    Activity_Bins 24 ≠ none := by
  refine ⟨?_, ?_, ?_⟩ <;> decide

/-- C2 amended: the binning maps hours through the ordered breakpoints
[0,2,4,6,24] into the labels "0-2h","2-4h","4-6h","6h+" over left-open,
right-closed intervals, partitioning (0,24]: a value gets a bin iff
0 < hours ≤ 24, a breakpoint value falls in the lower bin
(activityBin(2)="0-2h"), activityBin(0) is missing, activityBin(23.9)="6h+",
and any hours value outside (0,24] is assigned no bin. -/
theorem activity_bins_amended :
    (∀ q : ℚ, (Activity_Bins q).isSome ↔ 0 < q ∧ q ≤ 24) ∧
    Activity_Bins 0 = none ∧
    Activity_Bins 2 = some "0-2h" ∧
    Activity_Bins ((239 : ℚ) / 10) = some "6h+" ∧
    Activity_Bins 24 = some "6h+" ∧
    Activity_Bins 25 = none := by
  refine ⟨?_, by decide, by decide, by norm_num [Activity_Bins], by decide, by decide⟩
  intro q
  unfold Activity_Bins
  split_ifs with h1 h2 h3 h4
  · simpa using ⟨h1.1, by linarith [h1.2]⟩
  · simpa using ⟨by linarith [h2.1], by linarith [h2.2]⟩
  · simpa using ⟨by linarith [h3.1], by linarith [h3.2]⟩
  · simpa using ⟨by linarith [h4.1], h4.2⟩
  · push_neg at h1 h2 h3 h4
    simp only [Option.isSome_none, Bool.false_eq_true, false_iff]
    rintro ⟨hq0, hq24⟩
    have g1 := h1 hq0
    have g2 := h2 g1
    have g3 := h3 g2
    have g4 := h4 g3
    linarith

/-- C3: with both selector sets empty no row passes the filter — for every
table and age range the filtered table is empty and the run yields the
empty-result notice. -/
theorem empty_selectors_select_none (data : List Record) (ageMin ageMax : ℤ) :
    filtered_data data [] [] ageMin ageMax = [] ∧
    dashboard data [] [] ageMin ageMax = .emptyResult := by
  have h : filtered_data data [] [] ageMin ageMax = [] := by
    simp [filtered_data, rowPred]
  exact ⟨h, by simp [dashboard, h]⟩

/-- C4: whenever the filtered subset is empty the run renders the
empty-result notice and nothing downstream (derived table, KPI means,
group-by views, the report they form) is computed; when it is non-empty the
run renders exactly the report of the downstream computations. -/
theorem empty_guard (data : List Record) (countries genders : List String)
    (ageMin ageMax : ℤ) :
    (filtered_data data countries genders ageMin ageMax = [] →
      dashboard data countries genders ageMin ageMax = .emptyResult) ∧
    (filtered_data data countries genders ageMin ageMax ≠ [] →
      dashboard data countries genders ageMin ageMax =
        .report (mkReport (filtered_data data countries genders ageMin ageMax))) := by
  constructor
  · intro h; simp [dashboard, h]
  · intro h
    simp only [dashboard, List.isEmpty_iff]
    rw [if_neg h]

/-- C4 witness: a concrete empty filter result yields the notice, and a
concrete non-empty one yields the report. -/
theorem empty_guard_witness :
    dashboard [rUS1, rUS2, rDE] ["FR"] ["Male"] 20 60 = .emptyResult ∧
    dashboard [rUS1, rUS2, rDE] ["US"] ["Male"] 20 60 =
      .report (mkReport (filtered_data [rUS1, rUS2, rDE] ["US"] ["Male"] 20 60)) :=
  ⟨(empty_guard [rUS1, rUS2, rDE] ["FR"] ["Male"] 20 60).1 (by decide),
   (empty_guard [rUS1, rUS2, rDE] ["US"] ["Male"] 20 60).2 (by decide)⟩

/-- The independent naive reference for the coffee-intake mean, following
the spec's words: the sum of the coffee-intake values of the row set
divided by the number of rows. -/
def naiveCoffeeMean (rows : List Record) : ℚ :=
  (rows.map Record.Coffee_Intake).sum / (rows.length : ℚ)

/-- C7: for every non-empty filtered table, the KPI mean of coffee intake
rendered by the run equals the naive arithmetic mean over the same row set. -/
theorem kpi_coffee_refines (data : List Record) (countries genders : List String)
    (ageMin ageMax : ℤ)
    (h : filtered_data data countries genders ageMin ageMax ≠ []) :
    ∃ rep : Report,
      dashboard data countries genders ageMin ageMax = .report rep ∧
      rep.kpiCoffee = naiveCoffeeMean (filtered_data data countries genders ageMin ageMax) := by
  refine ⟨mkReport (filtered_data data countries genders ageMin ageMax), ?_, ?_⟩
  · simp only [dashboard, List.isEmpty_iff]
    rw [if_neg h]
  · simp [mkReport, seriesMean, naiveCoffeeMean]

/-- C7 witness: on the §8 scenario table restricted to US rows aged 20–60,
the rendered KPI equals the naive mean. -/
theorem kpi_coffee_refines_witness :
    ∃ rep : Report,
      dashboard [rUS1, rUS2, rDE] ["US"] ["Male", "Female"] 20 60 = .report rep ∧
      rep.kpiCoffee =
        naiveCoffeeMean (filtered_data [rUS1, rUS2, rDE] ["US"] ["Male", "Female"] 20 60) :=
  kpi_coffee_refines [rUS1, rUS2, rDE] ["US"] ["Male", "Female"] 20 60 (by decide)

/-- C9: on any non-empty table, the age-trend view has one entry per
distinct age, its ages are strictly ascending, an age appears iff some row
has it, and each entry carries the arithmetic means of coffee intake and
sleep hours over the rows of that age. -/
theorem age_trend_spec (rows : List Record) (h : rows ≠ []) :
    ((age_trend rows).map Prod.fst).Sorted (· < ·) ∧
    (∀ a : ℤ, a ∈ (age_trend rows).map Prod.fst ↔ ∃ r ∈ rows, r.Age = a) ∧
    (∀ e ∈ age_trend rows,
      e.2.1 = ((ageGroup rows e.1).map Record.Coffee_Intake).sum /
          ((ageGroup rows e.1).length : ℚ) ∧
      e.2.2 = ((ageGroup rows e.1).map Record.Sleep_Hours).sum /
          ((ageGroup rows e.1).length : ℚ)) := by
  have hmapfst : (age_trend rows).map Prod.fst = agesSorted rows := by
    simp [age_trend, List.map_map, Function.comp_def]
  refine ⟨?_, ?_, ?_⟩
  · rw [hmapfst]
    exact (List.sorted_insertionSort _ _).lt_of_le
      ((List.perm_insertionSort _ _).nodup_iff.mpr (List.nodup_dedup _))
  · intro a
    rw [hmapfst]
    simp [agesSorted, List.mem_insertionSort, List.mem_dedup]
  · intro e he
    obtain ⟨a, _, rfl⟩ := List.mem_map.mp he
    exact ⟨by simp [seriesMean], by simp [seriesMean]⟩

/-- C9 witness: on the §8 scenario table the age-trend ages are strictly
ascending. -/
theorem age_trend_spec_witness :
    ((age_trend [rUS1, rUS2, rDE]).map Prod.fst).Sorted (· < ·) :=
  (age_trend_spec [rUS1, rUS2, rDE] (by decide)).1

/-- Filtering by `some`-ness then extracting is the same as `filterMap`. -/
theorem filterMap_id_map {α β : Type} (f : α → Option β) (l : List α) :
    (l.map f).filterMap id = l.filterMap f := by
  induction l with
  | nil => rfl
  | cons a t ih => cases h : f a <;> simp_all

/-- The stress-index column's present values are exactly the indices of the
rows with a recognized stress level. -/
theorem stress_filterMap_eq (rows : List Record) :
    rows.filterMap (fun r => stress_level_mapping r.Stress_Level) =
      (rows.filter recognizedStress).map
        (fun r => (stress_level_mapping r.Stress_Level).getD 0) := by
  induction rows with
  | nil => rfl
  | cons r t ih =>
    cases h : stress_level_mapping r.Stress_Level with
    | none => simp [List.filter_cons, recognizedStress, h, ih]
    | some v => simp [List.filter_cons, recognizedStress, h, ih]

/-- C10: the mean stress-index KPI averages only the rows whose stress
level is recognized — if at least one row is recognized the KPI is the
arithmetic mean of those rows' indices (unrecognized rows silently
excluded), and if no row is recognized the KPI is missing. -/
theorem stress_kpi_skips_unrecognized (rows : List Record) :
    ((∃ r ∈ rows, recognizedStress r = true) →
      Stress_Index_KPI rows =
        some (((((rows.filter recognizedStress).map
            (fun r => (stress_level_mapping r.Stress_Level).getD 0)).sum : ℤ) : ℚ) /
          (((rows.filter recognizedStress).length : ℕ) : ℚ))) ∧
    ((∀ r ∈ rows, recognizedStress r = false) →
      Stress_Index_KPI rows = none) := by
  have key : (rows.map (fun r => stress_level_mapping r.Stress_Level)).filterMap id =
      (rows.filter recognizedStress).map
        (fun r => (stress_level_mapping r.Stress_Level).getD 0) := by
    rw [filterMap_id_map, stress_filterMap_eq]
  constructor
  · rintro ⟨r, hr, hrec⟩
    have hL : (rows.filter recognizedStress) ≠ [] :=
      List.ne_nil_of_mem (List.mem_filter.mpr ⟨hr, hrec⟩)
    simp only [Stress_Index_KPI, seriesMeanOpt, key]
    rw [if_neg (by simpa [List.isEmpty_iff] using hL)]
    simp
  · intro hall
    have hL : rows.filter recognizedStress = [] := by
      rw [List.filter_eq_nil_iff]
      intro r hr
      simp [hall r hr]
    simp [Stress_Index_KPI, seriesMeanOpt, key, hL]

/-- C10 witness: with one recognized and one unrecognized row the KPI
averages only the recognized one; with only unrecognized rows it is
missing. -/
theorem stress_kpi_skips_unrecognized_witness :
    Stress_Index_KPI [rUS1, rBad] =
      some ((((([rUS1, rBad].filter recognizedStress).map
          (fun r => (stress_level_mapping r.Stress_Level).getD 0)).sum : ℤ) : ℚ) /
        ((([rUS1, rBad].filter recognizedStress).length : ℕ) : ℚ)) ∧
    Stress_Index_KPI [rBad] = none :=
  ⟨(stress_kpi_skips_unrecognized [rUS1, rBad]).1 ⟨rUS1, by decide, by decide⟩,
   (stress_kpi_skips_unrecognized [rBad]).2 (by decide)⟩

/-- C8: the source table is never mutated — after the script's whole
sequence of operations (filter, copy, stress-index column, optional
activity-bin column), the loaded table is unchanged, whichever habit field
is selected. -/
theorem source_immutable (raw : List Record) (countries genders : List String)
    (ageMin ageMax : ℤ) (habitIsActivity : Bool) :
    (runScript raw countries genders ageMin ageMax habitIsActivity).data = raw := by
  cases habitIsActivity <;> rfl

/-- C6: on any non-empty filtered table whose five selected columns are
each non-constant, the Pearson correlation matrix is symmetric and every
diagonal entry equals 1. -/
theorem corr_matrix_props (rows : List Record) (hne : rows ≠ [])
    (hnc : ∀ i : Fin 5, Nonconstant (corrCols i) rows) :
    (∀ i j : Fin 5, corrMatrix rows i j = corrMatrix rows j i) ∧
    (∀ i : Fin 5, corrMatrix rows i i = 1) := by
  constructor
  · intro i j
    unfold corrMatrix pcorr
    rw [pairObs_swap (corrCols i) (corrCols j), pcov_swap,
      map_swap_fst, map_swap_snd, mul_comm]
  · intro i
    unfold corrMatrix pcorr
    rw [pairObs_self, pcov_diag, map_diag_fst, map_diag_snd]
    have hpos : 0 < pvar (rows.filterMap (corrCols i)) := pvar_pos _ (hnc i)
    have hposR : (0 : ℝ) < ((pvar (rows.filterMap (corrCols i)) : ℚ) : ℝ) := by
      exact_mod_cast hpos
    rw [Real.mul_self_sqrt hposR.le, div_self hposR.ne']

/-- C6 witness: on a concrete two-row table with all five columns
non-constant, an off-diagonal pair is symmetric and a diagonal entry is 1. -/
theorem corr_matrix_props_witness :
    corrMatrix [rUS1, rUS2] 0 1 = corrMatrix [rUS1, rUS2] 1 0 ∧
    corrMatrix [rUS1, rUS2] 2 2 = 1 :=
  ⟨(corr_matrix_props [rUS1, rUS2] (by decide) (by decide)).1 0 1,
   (corr_matrix_props [rUS1, rUS2] (by decide) (by decide)).2 2⟩

end Theorems

end CoffeeHealth
